import Mathlib

/-!
Shallow embedding of the donation-confirmation workflow of the
rockbridge-backend-api repository (Express + Mongoose + Stripe), and proofs
about the claims on that workflow.

Embedding conventions:
* Monetary values are rationals (`ℚ`); JavaScript numbers on the amount paths of the code are exact decimals with at most two fraction digits, for which
  rational arithmetic is exact.  Stripe minor-unit amounts are integers (`ℤ`).
* The Mongo store is a `DB` structure of lists; each Mongoose operation is a
  state-passing function.  `save` on a new document is modelled as
  validation → pre-save middleware → unique-index check → append, matching
  the documented Mongoose order (schema validation runs before user
  `pre("save")` hooks).
* Errors thrown by the JavaScript (duplicate-key, validation failure,
  "Donation not found") are explicit error results.
* The repository ships two deployment variants of the data layer (spec §3):
  a Campaign-keyed variant (src/models/Donation.js requires `campaignId`;
  src/services/donationService.js updates a Campaign document) and a
  ministry-keyed variant (src/controllers/donationController.js and the
  unnamed DonationService write a `ministry` string and no `campaignId`).
  The `DonationRecord` below carries the fields the confirm/webhook paths
  under study read and write; the Campaign-variant-only `campaignId`
  requiredness is not imposed on the ministry-path writes.  All other
  validators are taken from src/models/Donation.js.
-/

deriving instance DecidableEq for Except

namespace Rockbridge

/-- JavaScript `Number(x.toFixed(2))` on the decimal values this code
handles: rounding to a whole number of cents.  (`round` is round-half-up;
on the exact-cent values reached in the workflow the function is the
identity, which is all the proofs below use.) -/
def toFixed2 (q : ℚ) : ℚ := (round (q * 100) : ℤ) / 100

/-- Donor contact snapshot (the `donorInfo` subdocument of the Donation
schema; address subfields are not read by any claim and are omitted). -/
structure DonorInfo where
  firstName : String
  lastName : String
  email : String
  phone : Option String
  deriving Repr, DecidableEq

/-- One Donation document (src/models/Donation.js), restricted to the fields
the confirmation workflow, the webhook handlers and the claims read or
write.  `netAmount` is `Option` because the schema treats it as a separate
required field that the controller supplies explicitly; `processedAt` is an
abstract timestamp. -/
structure DonationRecord where
  donorInfo : DonorInfo
  ministry : String
  amount : ℚ
  currency : String
  isRecurring : Bool
  recurringFrequency : Option String
  isAnonymous : Bool
  message : String
  stripePaymentIntentId : Option String
  stripeCustomerId : Option String
  stripeSubscriptionId : Option String
  stripeInvoiceId : Option String
  paymentStatus : String
  transactionFee : ℚ
  netAmount : Option ℚ
  processedAt : Option ℕ
  source : String
  deriving Repr, DecidableEq

/-- One Donor document (donorSchema in src/utils/helpers.js), restricted to
the statistics fields `updateStats` maintains. -/
structure DonorRecord where
  email : String
  firstName : String
  lastName : String
  phone : Option String
  preferredCurrency : String
  totalDonated : ℚ
  donationCount : ℕ
  averageDonation : ℚ
  largestDonation : ℚ
  firstDonationDate : Option ℕ
  lastDonationDate : Option ℕ
  deriving Repr, DecidableEq

/-- One Campaign document (src/models/Campaign.js), restricted to the
aggregate fields of the donation workflow. -/
structure Campaign where
  id : String
  goalAmount : ℚ
  raisedAmount : ℚ
  donorCount : ℕ
  status : String
  deriving Repr, DecidableEq

/-- The persistent store. -/
structure DB where
  donations : List DonationRecord
  donors : List DonorRecord
  campaigns : List Campaign
  deriving Repr, DecidableEq

def DB.empty : DB := ⟨[], [], []⟩

/-- `paymentStatus` enum of the Donation schema. -/
def paymentStatusValues : List String :=
  ["pending", "processing", "succeeded", "failed", "canceled", "refunded",
   "requires_action"]

/-- `currency` enum of the Donation schema. -/
def currencyValues : List String := ["USD", "EUR", "GBP", "CAD", "AUD"]

/-- `source` enum of the Donation schema. -/
def sourceValues : List String :=
  ["website", "mobile_app", "social_media", "email_campaign", "other"]

/-- `recurringFrequency` enum of the Donation schema. -/
def recurringFrequencyValues : List String := ["monthly", "quarterly", "annually"]

/-- Schema validation of a Donation document (src/models/Donation.js):
required donor names and email (the email/phone format regexes belong to
the schema library, excluded as an external collaborator by spec §1),
`amount ≥ 1` with at most two decimal places, enum checks,
`stripePaymentIntentId` required (fails on absent or empty string),
`transactionFee ≥ 0`, `netAmount` required and `≥ 0`,
`recurringFrequency` required when `isRecurring`. -/
def validDonation (d : DonationRecord) : Prop :=
  d.donorInfo.firstName ≠ "" ∧ d.donorInfo.firstName.length ≤ 50 ∧
  d.donorInfo.lastName ≠ "" ∧ d.donorInfo.lastName.length ≤ 50 ∧
  d.donorInfo.email ≠ "" ∧
  1 ≤ d.amount ∧ (d.amount * 100).den = 1 ∧
  d.currency ∈ currencyValues ∧
  (d.isRecurring = true → d.recurringFrequency ≠ none) ∧
  d.recurringFrequency.getD "monthly" ∈ recurringFrequencyValues ∧
  d.stripePaymentIntentId.getD "" ≠ "" ∧
  d.paymentStatus ∈ paymentStatusValues ∧
  0 ≤ d.transactionFee ∧
  d.netAmount.isSome = true ∧ 0 ≤ d.netAmount.getD 0 ∧
  d.source ∈ sourceValues

instance : DecidablePred validDonation := fun d => by
  unfold validDonation
  infer_instance

/-- The `donationSchema.pre("save")` middleware.  JavaScript truthiness:
`!this.netAmount` holds when `netAmount` is absent or `0`; `this.amount`
is truthy when nonzero; `this.transactionFee !== undefined` always holds
(schema default 0).  The `isModified("paymentStatus")` guard of the second
branch is true in every execution that reaches it with the other two
conditions (the status was assigned on that save path), so it is not
modelled separately. -/
def donationPreSave (now : ℕ) (d : DonationRecord) : DonationRecord :=
  if (d.netAmount = none ∨ d.netAmount = some 0) ∧ d.amount ≠ 0 then
    if d.paymentStatus = "succeeded" ∧ d.processedAt = none then
      { d with netAmount := some (toFixed2 (d.amount - d.transactionFee)),
               processedAt := some now }
    else
      { d with netAmount := some (toFixed2 (d.amount - d.transactionFee)) }
  else
    if d.paymentStatus = "succeeded" ∧ d.processedAt = none then
      { d with processedAt := some now }
    else d

/-- The unique (sparse) index on `stripePaymentIntentId`: a new document
conflicts when some stored document carries the same present intent id.
(The pre-save middleware never touches this field, so the check is stated
on the incoming record.) -/
def hasIntentConflict (db : DB) (d : DonationRecord) : Prop :=
  ∃ e ∈ db.donations, e.stripePaymentIntentId.isSome = true ∧
    e.stripePaymentIntentId = d.stripePaymentIntentId

instance (db : DB) (d : DonationRecord) : Decidable (hasIntentConflict db d) := by
  unfold hasIntentConflict
  infer_instance

/-- `new Donation(data); donation.save()`: validation, then the pre-save
middleware, then the insert, which the unique index can reject with a
duplicate-key error. -/
def saveNewDonation (now : ℕ) (d : DonationRecord) (db : DB) :
    Except String (DonationRecord × DB) :=
  if ¬ validDonation d then .error "ValidationError"
  else if hasIntentConflict db d then .error "E11000 duplicate key"
  else .ok (donationPreSave now d,
            { db with donations := db.donations ++ [donationPreSave now d] })

/-- `donorSchema.methods.updateStats` (src/utils/helpers.js): recompute the
running totals, average, largest donation and first/last donation dates. -/
def updateStats (now : ℕ) (donationAmount : ℚ) (d : DonorRecord) : DonorRecord :=
  { d with
    totalDonated := toFixed2 (d.totalDonated + donationAmount)
    donationCount := d.donationCount + 1
    averageDonation :=
      toFixed2 (toFixed2 (d.totalDonated + donationAmount) / ((d.donationCount + 1 : ℕ) : ℚ))
    largestDonation :=
      if donationAmount > d.largestDonation then donationAmount else d.largestDonation
    lastDonationDate := some now
    firstDonationDate :=
      if d.firstDonationDate = none then some now else d.firstDonationDate }

/-- `Donor.findOneAndUpdate({email}, {$set: contact, $setOnInsert: ...},
{upsert: true, new: true})`. -/
def upsertDonor (info : DonorInfo) (currency : String) (db : DB) :
    DonorRecord × DB :=
  match db.donors.find? (fun r => r.email == info.email) with
  | some r =>
      (⟨r.email, info.firstName, info.lastName, info.phone, r.preferredCurrency,
        r.totalDonated, r.donationCount, r.averageDonation, r.largestDonation,
        r.firstDonationDate, r.lastDonationDate⟩,
       { db with donors := db.donors.map (fun e =>
           if e.email == info.email then
             ⟨r.email, info.firstName, info.lastName, info.phone, r.preferredCurrency,
              r.totalDonated, r.donationCount, r.averageDonation, r.largestDonation,
              r.firstDonationDate, r.lastDonationDate⟩
           else e) })
  | none =>
      (⟨info.email, info.firstName, info.lastName, info.phone, currency,
        0, 0, 0, 0, none, none⟩,
       { db with donors := db.donors ++
          [⟨info.email, info.firstName, info.lastName, info.phone, currency,
            0, 0, 0, 0, none, none⟩] })

/-- Write back a donor document (the `save()` inside `updateStats`). -/
def putDonor (r : DonorRecord) (db : DB) : DB :=
  { db with donors := db.donors.map (fun e => if e.email == r.email then r else e) }

/-- `DonationController.createOrUpdateDonor`: upsert the donor by email,
then `donor.updateStats(donation.amount)`. -/
def createOrUpdateDonor (now : ℕ) (donation : DonationRecord) (db : DB) : DB :=
  putDonor
    (updateStats now donation.amount
      (upsertDonor donation.donorInfo donation.currency db).1)
    (upsertDonor donation.donorInfo donation.currency db).2

/-- A Stripe payment intent as `retrievePaymentIntent` reports it:
`status`, minor-unit `amount` (cents) and `application_fee_amount`. -/
structure PaymentIntent where
  id : String
  status : String
  amount : ℤ
  application_fee_amount : Option ℤ
  deriving Repr, DecidableEq

/-- The validated body of `POST /donations/confirm`
(schemas.confirmDonation in src/middlewares/validation.js). -/
structure ConfirmBody where
  paymentIntentId : String
  ministry : String
  donorInfo : DonorInfo
  amount : ℚ
  currency : String
  isRecurring : Bool
  message : String
  deriving Repr, DecidableEq

/-- Outcome of `confirmDonation` as seen by the HTTP client: 400 declined
with the gateway status, 201 created, or an error forwarded to the error
middleware (5xx). -/
inductive ConfirmResult where
  | declined (paymentStatus : String)
  | created (donation : DonationRecord)
  | err (msg : String)
  deriving Repr, DecidableEq

/-- The `donationData` object built in `DonationController.confirmDonation`:
the spread of the request body (so `amount` is the client-supplied amount),
plus `stripePaymentIntentId`, `paymentStatus: "succeeded"`,
`netAmount: paymentIntent.amount / 100`,
`transactionFee: (paymentIntent.application_fee_amount || 0) / 100` and
`processedAt: new Date()`. -/
def donationDataOf (now : ℕ) (body : ConfirmBody) (payIntent : PaymentIntent) :
    DonationRecord :=
  { donorInfo := body.donorInfo
    ministry := body.ministry
    amount := body.amount
    currency := body.currency
    isRecurring := body.isRecurring
    recurringFrequency := none
    isAnonymous := false
    message := body.message
    stripePaymentIntentId := some body.paymentIntentId
    stripeCustomerId := none
    stripeSubscriptionId := none
    stripeInvoiceId := none
    paymentStatus := "succeeded"
    transactionFee := ((payIntent.application_fee_amount.getD 0 : ℤ) : ℚ) / 100
    netAmount := some ((payIntent.amount : ℚ) / 100)
    processedAt := some now
    source := "website" }

/-- `DonationController.confirmDonation` (src/controllers/donationController.js):
retrieve the intent from the gateway (`gw`), decline unless its status is
`succeeded`, save the donation, then create/update the donor.  There is no
transaction around the two writes; any thrown error is forwarded to
`next(error)` with the store left as it is at that point.  `donorStepFails`
injects a failure into the donor-upsert step (the fault injection of claim C2). -/
def confirmDonation (gw : String → PaymentIntent) (donorStepFails : Bool)
    (now : ℕ) (body : ConfirmBody) (db : DB) : ConfirmResult × DB :=
  if (gw body.paymentIntentId).status ≠ "succeeded" then
    (.declined (gw body.paymentIntentId).status, db)
  else
    match saveNewDonation now (donationDataOf now body (gw body.paymentIntentId)) db with
    | .error e => (.err e, db)
    | .ok (d, db1) =>
        if donorStepFails then (.err "donor upsert failed", db1)
        else (.created d, createOrUpdateDonor now d db1)

/-- Outcome of a DonationService operation. -/
inductive SvcResult where
  | ok (donation : DonationRecord)
  | err (msg : String)
  deriving Repr, DecidableEq

/-- `DonationService.createDonation` of the ministry variant (the unnamed
service file): inside `session.withTransaction`, save the donation, upsert
the donor and update its statistics.  When any step throws, the transaction
aborts and the store is left exactly as before the call — this is the
all-or-nothing write.  `donorStepFails` injects a failure into the
donor-upsert step. -/
def createDonationService (donorStepFails : Bool) (now : ℕ)
    (data : DonationRecord) (db : DB) : SvcResult × DB :=
  match saveNewDonation now data db with
  | .error e => (.err e, db)
  | .ok (d, db1) =>
      if donorStepFails then (.err "donor upsert failed", db)
      else (.ok d, createOrUpdateDonor now d db1)

/-- `Campaign.findByIdAndUpdate(campaignId, {$inc: {raisedAmount, donorCount}})`
inside the Campaign-variant `DonationService.createDonation`
(src/services/donationService.js).  `findByIdAndUpdate` is an atomic update
that does **not** run `campaignSchema.pre("save")`, so the status field is
untouched here. -/
def campaignIncrement (campaignId : String) (amount : ℚ) (db : DB) : DB :=
  { db with campaigns := db.campaigns.map (fun c =>
      if c.id == campaignId then
        ⟨c.id, c.goalAmount, c.raisedAmount + amount, c.donorCount + 1, c.status⟩
      else c) }

/-- The Campaign-variant `DonationService.createDonation`
(src/services/donationService.js): within one transaction, save the
donation, `$inc` the campaign aggregate, upsert the donor and update its
statistics; on any failure the transaction aborts, leaving the store
unchanged. -/
def createDonationWithCampaign (donorStepFails : Bool) (now : ℕ)
    (campaignId : String) (data : DonationRecord) (db : DB) : SvcResult × DB :=
  match saveNewDonation now data db with
  | .error e => (.err e, db)
  | .ok (d, db1) =>
      if donorStepFails then (.err "donor upsert failed", db)
      else (.ok d, createOrUpdateDonor now d (campaignIncrement campaignId data.amount db1))

/-- `campaignSchema.pre("save")` (src/models/Campaign.js): auto-complete an
active campaign whose raised amount has reached its goal.  (The slug
generation of the same hook is not donation-related and is omitted.) -/
def campaignPreSave (c : Campaign) : Campaign :=
  if c.raisedAmount ≥ c.goalAmount ∧ c.status = "active" then
    ⟨c.id, c.goalAmount, c.raisedAmount, c.donorCount, "completed"⟩
  else c

/-- `campaignSchema.methods.updateProgress` (src/models/Campaign.js): add the
donation amount (rounded to cents), bump the donor count, apply the
completed-threshold transition, then `save()` (which runs the pre-save hook
once more; it is idempotent here). -/
def updateProgress (donationAmount : ℚ) (c : Campaign) : Campaign :=
  campaignPreSave
    (if toFixed2 (c.raisedAmount + donationAmount) ≥ c.goalAmount ∧ c.status = "active" then
      ⟨c.id, c.goalAmount, toFixed2 (c.raisedAmount + donationAmount),
       c.donorCount + 1, "completed"⟩
    else
      ⟨c.id, c.goalAmount, toFixed2 (c.raisedAmount + donationAmount),
       c.donorCount + 1, c.status⟩)

/-- The two assignments `updateDonationStatus` performs on the fetched
document before saving it: `donation.paymentStatus = status`, and
`donation.processedAt = new Date()` when the status is `succeeded` and no
processed timestamp is set yet. -/
def statusAssign (now : ℕ) (status : String) (d : DonationRecord) : DonationRecord :=
  if status = "succeeded" ∧ d.processedAt = none then
    { d with paymentStatus := status, processedAt := some now }
  else { d with paymentStatus := status }

/-- `DonationService.updateDonationStatus`: look the donation up by intent
id (throwing "Donation not found" when absent), overwrite `paymentStatus`
with the given status unconditionally, stamp `processedAt` on a first
transition to `succeeded`, and `save()` (validation + pre-save middleware;
an in-place update, so the unique index cannot reject it). -/
def updateDonationStatus (now : ℕ) (paymentIntentId : String) (status : String)
    (db : DB) : SvcResult × DB :=
  match db.donations.find? (fun d => d.stripePaymentIntentId == some paymentIntentId) with
  | none => (.err "Donation not found", db)
  | some d =>
      if validDonation (statusAssign now status d) then
        (.ok (donationPreSave now (statusAssign now status d)),
         { db with donations := db.donations.map (fun e =>
             if e.stripePaymentIntentId == some paymentIntentId then
               donationPreSave now (statusAssign now status d)
             else e) })
      else (.err "ValidationError", db)

/-- `WebhookController.handlePaymentSucceeded`: a `payment_intent.succeeded`
event is routed to `updateDonationStatus(intentId, "succeeded")`. -/
def handlePaymentSucceeded (now : ℕ) (paymentIntentId : String) (db : DB) :
    SvcResult × DB :=
  updateDonationStatus now paymentIntentId "succeeded" db

/-- `WebhookController.handlePaymentFailed`: a `payment_intent.payment_failed`
event is routed to `updateDonationStatus(intentId, "failed")`. -/
def handlePaymentFailed (now : ℕ) (paymentIntentId : String) (db : DB) :
    SvcResult × DB :=
  updateDonationStatus now paymentIntentId "failed" db

/-- `DonationService.cancelRecurringDonation`:
`Donation.updateMany({stripeSubscriptionId}, {$set: {paymentStatus: "canceled"}})`
— a bulk update that bypasses validation and hooks. -/
def cancelRecurringDonation (subscriptionId : String) (db : DB) : DB :=
  { db with donations := db.donations.map (fun d =>
      if d.stripeSubscriptionId == some subscriptionId then
        { d with paymentStatus := "canceled" }
      else d) }

/-- The invoice data `WebhookController.handleRecurringPaymentSucceeded`
passes to `createRecurringDonation` (`amount` is already
`invoice.amount_paid / 100`). -/
structure InvoiceData where
  stripeInvoiceId : String
  stripeSubscriptionId : String
  stripeCustomerId : String
  amount : ℚ
  currency : String
  deriving Repr, DecidableEq

/-- The `donationData` object `DonationService.createRecurringDonation`
builds from the donation of the origin subscription: subscription, customer and
invoice ids are set, but no `stripePaymentIntentId`. -/
def recurringDonationData (now : ℕ) (orig : DonationRecord) (inv : InvoiceData) :
    DonationRecord :=
  { donorInfo := orig.donorInfo
    ministry := orig.ministry
    amount := inv.amount
    currency := inv.currency
    isRecurring := true
    recurringFrequency := orig.recurringFrequency
    isAnonymous := false
    message := ""
    stripePaymentIntentId := none
    stripeCustomerId := some inv.stripeCustomerId
    stripeSubscriptionId := some inv.stripeSubscriptionId
    stripeInvoiceId := some inv.stripeInvoiceId
    paymentStatus := "succeeded"
    transactionFee := 0
    netAmount := some inv.amount
    processedAt := some now
    source := "recurring_webhook" }

/-- `DonationService.createRecurringDonation`: find the origin donation by
subscription id (throwing when absent) and feed the copied data through
`createDonation`. -/
def createRecurringDonation (donorStepFails : Bool) (now : ℕ) (inv : InvoiceData)
    (db : DB) : SvcResult × DB :=
  match db.donations.find? (fun d => d.stripeSubscriptionId == some inv.stripeSubscriptionId) with
  | none => (.err "Original subscription donation not found", db)
  | some orig => createDonationService donorStepFails now (recurringDonationData now orig inv) db

/-- The normalization step of the custom `amountValidator` in
src/middlewares/validation.js: a value above 100,000 is assumed to be in
cents and divided by 100 with `Math.round`. -/
def amountNormalize (value : ℚ) : ℚ :=
  if value > 100000 then ((round (value / 100) : ℤ) : ℚ) else value

/-- The custom `amountValidator` in src/middlewares/validation.js: a value
above 100000 is assumed to be in cents and divided by 100 (with
`Math.round`), then range-checked. -/
def amountValidator (value : ℚ) : Except String ℚ :=
  if amountNormalize value < 1 ∨ amountNormalize value > 100000 then
    .error "Amount must be between $1 and $100,000"
  else .ok (amountNormalize value)

/-- The single unit conversion in `StripeService.createPaymentIntent`:
`amount: Math.round(amount * 100)`. -/
def createPaymentIntentCents (amount : ℚ) : ℤ := round (amount * 100)

/-- Modelled from the spec: the §4.2 payment-status state machine
(`pending → processing → succeeded | failed | requires_action`;
`succeeded → refunded`; `succeeded/failed → canceled`), with staying in
place allowed.  This is the spec-side relation claim C5 compares the code
against; no such relation exists in the source. -/
def specAllowedTransition (s t : String) : Prop :=
  s = t ∨
  (s = "pending" ∧ t = "processing") ∨
  (s = "processing" ∧ (t = "succeeded" ∨ t = "failed" ∨ t = "requires_action")) ∨
  (s = "succeeded" ∧ (t = "refunded" ∨ t = "canceled")) ∨
  (s = "failed" ∧ t = "canceled")

instance (s t : String) : Decidable (specAllowedTransition s t) := by
  unfold specAllowedTransition
  infer_instance

/-! ### Helper lemmas -/

theorem donationPreSave_stripePaymentIntentId (now : ℕ) (d : DonationRecord) :
    (donationPreSave now d).stripePaymentIntentId = d.stripePaymentIntentId := by
  unfold donationPreSave
  split <;> split <;> rfl

theorem donationPreSave_paymentStatus (now : ℕ) (d : DonationRecord) :
    (donationPreSave now d).paymentStatus = d.paymentStatus := by
  unfold donationPreSave
  split <;> split <;> rfl

theorem createOrUpdateDonor_donations (now : ℕ) (d : DonationRecord) (db : DB) :
    (createOrUpdateDonor now d db).donations = db.donations := by
  cases hfind : db.donors.find? (fun r => r.email == d.donorInfo.email) <;>
    simp [createOrUpdateDonor, putDonor, upsertDonor, hfind]

theorem createOrUpdateDonor_campaigns (now : ℕ) (d : DonationRecord) (db : DB) :
    (createOrUpdateDonor now d db).campaigns = db.campaigns := by
  cases hfind : db.donors.find? (fun r => r.email == d.donorInfo.email) <;>
    simp [createOrUpdateDonor, putDonor, upsertDonor, hfind]

theorem saveNewDonation_eq_ok (now : ℕ) (d : DonationRecord) (db : DB)
    (hv : validDonation d) (hc : ¬ hasIntentConflict db d) :
    saveNewDonation now d db =
      .ok (donationPreSave now d,
           { db with donations := db.donations ++ [donationPreSave now d] }) := by
  unfold saveNewDonation
  rw [if_neg (not_not_intro hv), if_neg hc]

/-- The pre-save middleware does nothing to the record `confirmDonation`
builds, provided the gateway reports a nonzero amount: `netAmount` is
present and nonzero, and `processedAt` is already stamped. -/
theorem donationPreSave_donationDataOf (now : ℕ) (body : ConfirmBody)
    (payIntent : PaymentIntent) (ha : payIntent.amount ≠ 0) :
    donationPreSave now (donationDataOf now body payIntent) =
      donationDataOf now body payIntent := by
  unfold donationPreSave donationDataOf
  rw [if_neg, if_neg]
  · simp
  · simp only []
    rintro ⟨h0 | h0, -⟩
    · exact Option.noConfusion h0
    · have : ((payIntent.amount : ℚ) / 100) = 0 := by
        simpa using h0
      have : (payIntent.amount : ℚ) = 0 := by
        field_simp at this
        simpa using this
      exact ha (by exact_mod_cast this)

/-- On the success path (gateway status `succeeded`, valid data, fresh
intent id), `confirmDonation` inserts the built record and then either
fails the injected donor step (leaving the insert behind) or updates the
donor store. -/
theorem confirmDonation_success_eq (gw : String → PaymentIntent)
    (donorStepFails : Bool) (now : ℕ) (body : ConfirmBody) (db : DB)
    (hs : (gw body.paymentIntentId).status = "succeeded")
    (hv : validDonation (donationDataOf now body (gw body.paymentIntentId)))
    (hfresh : ∀ e ∈ db.donations, e.stripePaymentIntentId ≠ some body.paymentIntentId) :
    confirmDonation gw donorStepFails now body db =
      (if donorStepFails then
        (.err "donor upsert failed",
         { db with donations := db.donations ++
            [donationPreSave now (donationDataOf now body (gw body.paymentIntentId))] })
       else
        (.created (donationPreSave now (donationDataOf now body (gw body.paymentIntentId))),
         createOrUpdateDonor now
           (donationPreSave now (donationDataOf now body (gw body.paymentIntentId)))
           { db with donations := db.donations ++
              [donationPreSave now (donationDataOf now body (gw body.paymentIntentId))] })) := by
  have hc : ¬ hasIntentConflict db (donationDataOf now body (gw body.paymentIntentId)) := by
    rintro ⟨e, he, -, heq⟩
    exact hfresh e he (by simpa [donationDataOf] using heq)
  unfold confirmDonation
  rw [if_neg (by simp [hs]), saveNewDonation_eq_ok now _ db hv hc]

/-! ### Concrete fixtures shared by the concrete runs -/

/-- A concrete donor. -/
def janeInfo : DonorInfo := ⟨"Jane", "Doe", "jane@example.com", none⟩

/-- A gateway on which every intent has succeeded: 5000 cents, no fee. -/
def gwSucceeded : String → PaymentIntent := fun s => ⟨s, "succeeded", 5000, none⟩

/-- A gateway on which every intent still requires action. -/
def gwRequiresAction : String → PaymentIntent := fun s => ⟨s, "requires_action", 5000, none⟩

/-- A concrete valid confirm body for intent pi_1, client amount 50. -/
def bodyPi1 : ConfirmBody := ⟨"pi_1", "Upendo Academy", janeInfo, 50, "USD", false, ""⟩

/-! ### Claim C8 -/

/-- Claim C8: when `confirmDonation` is called with an intent id whose
gateway-reported status is anything other than `succeeded`, it returns a
declined response carrying the gateway-reported status and the store is
completely untouched — zero donation, donor or campaign mutations. -/
theorem C8_declined_path (gw : String → PaymentIntent) (donorStepFails : Bool)
    (now : ℕ) (body : ConfirmBody) (db : DB)
    (h : (gw body.paymentIntentId).status ≠ "succeeded") :
    confirmDonation gw donorStepFails now body db =
      (.declined (gw body.paymentIntentId).status, db) := by
  unfold confirmDonation
  rw [if_pos h]

/-- Witness for C8: a concrete `requires_action` intent is declined with
that status and the empty store stays empty. -/
theorem C8_witness :
    (gwRequiresAction bodyPi1.paymentIntentId).status ≠ "succeeded" ∧
    confirmDonation gwRequiresAction false 0 bodyPi1 DB.empty =
      (.declined "requires_action", DB.empty) :=
  ⟨by decide, C8_declined_path gwRequiresAction false 0 bodyPi1 DB.empty (by decide)⟩

/-! ### Claim C9 -/

/-- Claim C9 counterexample: the client-facing validation middleware itself
reinterprets amounts by magnitude — `amountValidator` turns 150000 into
1500 (assuming cents), so a client-facing code path other than the gateway
adapter does reinterpret amounts as cents. -/
theorem C9_counterexample :
    amountValidator 150000 = .ok 1500 ∧ (1500 : ℚ) ≠ 150000 := by
  constructor
  · unfold amountValidator amountNormalize
    norm_num [round_eq]
  · norm_num

/-- Claim C9 (amended): the gateway adapter converts a major-unit amount
exactly as `round(amount * 100)`, and `amountValidator` passes any amount
in the documented 1..100000 major-unit range through unchanged; but any
larger value is reinterpreted as cents and divided by 100 — the magnitude
heuristic does exist in the validation middleware. -/
theorem C9_amount_units (v w : ℚ) (h1 : 1 ≤ v) (h2 : v ≤ 100000)
    (hw : 100000 < w) :
    createPaymentIntentCents v = round (v * 100) ∧
    amountValidator v = .ok v ∧
    amountNormalize w = ((round (w / 100) : ℤ) : ℚ) := by
  have hn : amountNormalize v = v := by
    unfold amountNormalize
    rw [if_neg (not_lt.mpr h2)]
  refine ⟨rfl, ?_, ?_⟩
  · unfold amountValidator
    rw [hn, if_neg (by push_neg; exact ⟨h1, h2⟩)]
  · unfold amountNormalize
    rw [if_pos hw]

/-- Witness for C9 at 50 dollars and at the 150000 boundary-crossing value. -/
theorem C9_witness :
    (1 : ℚ) ≤ 50 ∧ (50 : ℚ) ≤ 100000 ∧ (100000 : ℚ) < 150000 ∧
    (createPaymentIntentCents 50 = round ((50 : ℚ) * 100) ∧
     amountValidator 50 = .ok 50 ∧
     amountNormalize 150000 = ((round ((150000 : ℚ) / 100) : ℤ) : ℚ)) :=
  ⟨by decide, by decide, by decide,
   C9_amount_units 50 150000 (by decide) (by decide) (by decide)⟩

/-- The record `confirmDonation` builds for the concrete pi_1 run is
schema-valid. -/
theorem validDonation_dataPi1 :
    validDonation (donationDataOf 0 bodyPi1 (gwSucceeded "pi_1")) := by
  norm_num [validDonation, donationDataOf, gwSucceeded, bodyPi1, janeInfo,
    currencyValues, paymentStatusValues, sourceValues, recurringFrequencyValues]
  decide

/-! ### Claim C1 -/

/-- Calling `confirmDonation` twice with the same intent id: the first call
inserts; the second is rejected by the unique index as a duplicate key,
changing nothing; exactly one record for the id is stored. -/
theorem confirm_twice_duplicate (gw : String → PaymentIntent) (now : ℕ)
    (body : ConfirmBody) (db : DB)
    (hs : (gw body.paymentIntentId).status = "succeeded")
    (hv : validDonation (donationDataOf now body (gw body.paymentIntentId)))
    (hfresh : ∀ e ∈ db.donations, e.stripePaymentIntentId ≠ some body.paymentIntentId) :
    confirmDonation gw false now body
        (confirmDonation gw false now body db).2 =
      (.err "E11000 duplicate key", (confirmDonation gw false now body db).2) ∧
    ((confirmDonation gw false now body db).2.donations.filter
        (fun d => d.stripePaymentIntentId == some body.paymentIntentId)).length = 1 := by
  have h1 := confirmDonation_success_eq gw false now body db hs hv hfresh
  simp only [Bool.false_eq_true, if_false] at h1
  have hconf : hasIntentConflict
      (createOrUpdateDonor now
        (donationPreSave now (donationDataOf now body (gw body.paymentIntentId)))
        { db with donations := db.donations ++
            [donationPreSave now (donationDataOf now body (gw body.paymentIntentId))] })
      (donationDataOf now body (gw body.paymentIntentId)) := by
    refine ⟨donationPreSave now (donationDataOf now body (gw body.paymentIntentId)),
      ?_, ?_, ?_⟩
    · rw [createOrUpdateDonor_donations]
      exact List.mem_append_right _ (List.mem_singleton_self _)
    · rw [donationPreSave_stripePaymentIntentId]
      rfl
    · rw [donationPreSave_stripePaymentIntentId]
  constructor
  · rw [h1]
    unfold confirmDonation
    rw [if_neg (by simp [hs])]
    unfold saveNewDonation
    rw [if_neg (not_not_intro hv), if_pos hconf]
  · rw [h1, createOrUpdateDonor_donations, List.filter_append]
    have hnil : db.donations.filter
        (fun d => d.stripePaymentIntentId == some body.paymentIntentId) = [] := by
      rw [List.filter_eq_nil_iff]
      intro e he
      simpa using hfresh e he
    rw [hnil]
    simp [donationPreSave_stripePaymentIntentId, donationDataOf]

/-- Claim C1 (amended): calling `confirmDonation` twice with the same intent
id yields exactly one persisted Donation record for that id, and the second
call changes no state at all (so the donor aggregate is incremented exactly
once); but the second call is rejected by the unique index with a
duplicate-key error instead of returning the existing donation. -/
theorem C1_confirm_twice (gw : String → PaymentIntent) (now : ℕ)
    (body : ConfirmBody) (db : DB)
    (hs : (gw body.paymentIntentId).status = "succeeded")
    (hv : validDonation (donationDataOf now body (gw body.paymentIntentId)))
    (hfresh : ∀ e ∈ db.donations, e.stripePaymentIntentId ≠ some body.paymentIntentId) :
    confirmDonation gw false now body
        (confirmDonation gw false now body db).2 =
      (.err "E11000 duplicate key", (confirmDonation gw false now body db).2) ∧
    ((confirmDonation gw false now body db).2.donations.filter
        (fun d => d.stripePaymentIntentId == some body.paymentIntentId)).length = 1 :=
  confirm_twice_duplicate gw now body db hs hv hfresh

/-- Claim C1 counterexample: in the concrete double-confirm run the second
call with the same intent id is rejected by the unique index and surfaces a
duplicate-key error — it is not resolved as an idempotent replay returning
the existing donation. -/
theorem C1_counterexample :
    (confirmDonation gwSucceeded false 0 bodyPi1
      (confirmDonation gwSucceeded false 0 bodyPi1 DB.empty).2).1 =
      .err "E11000 duplicate key" := by
  rw [(confirm_twice_duplicate gwSucceeded 0 bodyPi1 DB.empty rfl validDonation_dataPi1
    (by intro e he; simp [DB.empty] at he)).1]

/-- Witness for C1 at the concrete pi_1 run on the empty store. -/
theorem C1_witness :
    (gwSucceeded bodyPi1.paymentIntentId).status = "succeeded" ∧
    validDonation (donationDataOf 0 bodyPi1 (gwSucceeded bodyPi1.paymentIntentId)) ∧
    (∀ e ∈ DB.empty.donations, e.stripePaymentIntentId ≠ some bodyPi1.paymentIntentId) ∧
    (confirmDonation gwSucceeded false 0 bodyPi1
        (confirmDonation gwSucceeded false 0 bodyPi1 DB.empty).2 =
      (.err "E11000 duplicate key", (confirmDonation gwSucceeded false 0 bodyPi1 DB.empty).2) ∧
    ((confirmDonation gwSucceeded false 0 bodyPi1 DB.empty).2.donations.filter
        (fun d => d.stripePaymentIntentId == some bodyPi1.paymentIntentId)).length = 1) :=
  ⟨rfl, validDonation_dataPi1, by intro e he; simp [DB.empty] at he,
   C1_confirm_twice gwSucceeded 0 bodyPi1 DB.empty rfl validDonation_dataPi1
     (by intro e he; simp [DB.empty] at he)⟩

/-! ### Claim C2 -/

/-- Claim C2 counterexample: in the concrete run in which the donor-upsert
step fails right after the donation insert, `confirmDonation` surfaces the
error but the inserted donation record remains persisted — there is no
rollback, refuting the all-or-nothing property for `confirmDonation`. -/
theorem C2_counterexample :
    (confirmDonation gwSucceeded true 0 bodyPi1 DB.empty).1 =
      .err "donor upsert failed" ∧
    (confirmDonation gwSucceeded true 0 bodyPi1 DB.empty).2.donations.length = 1 := by
  have h := confirmDonation_success_eq gwSucceeded true 0 bodyPi1 DB.empty rfl
    validDonation_dataPi1 (by intro e he; simp [DB.empty] at he)
  simp only [if_pos] at h
  rw [h]
  exact ⟨rfl, by simp [DB.empty]⟩

/-- Claim C2 (amended): the donation insert and the donor upsert in
`confirmDonation` are not atomic — an injected failure of the donor step
leaves the freshly inserted donation persisted and the donor store
untouched; by contrast, the transactional `DonationService.createDonation`
leaves the whole store exactly unchanged whenever its donor step fails. -/
theorem C2_no_rollback_in_confirm (gw : String → PaymentIntent) (now : ℕ)
    (body : ConfirmBody) (db : DB)
    (hs : (gw body.paymentIntentId).status = "succeeded")
    (hv : validDonation (donationDataOf now body (gw body.paymentIntentId)))
    (hfresh : ∀ e ∈ db.donations, e.stripePaymentIntentId ≠ some body.paymentIntentId) :
    ((confirmDonation gw true now body db).1 = .err "donor upsert failed" ∧
     (confirmDonation gw true now body db).2.donations =
       db.donations ++ [donationPreSave now (donationDataOf now body (gw body.paymentIntentId))] ∧
     (confirmDonation gw true now body db).2.donors = db.donors) ∧
    (∀ (now2 : ℕ) (data : DonationRecord) (db2 : DB),
      (createDonationService true now2 data db2).2 = db2) := by
  constructor
  · have h := confirmDonation_success_eq gw true now body db hs hv hfresh
    simp only [if_pos] at h
    rw [h]
    exact ⟨rfl, rfl, rfl⟩
  · intro now2 data db2
    unfold createDonationService
    cases h : saveNewDonation now2 data db2 with
    | error e => rfl
    | ok p =>
        rcases p with ⟨d, db1⟩
        rfl

/-- Witness for C2 at the concrete pi_1 run on the empty store. -/
theorem C2_witness :
    (gwSucceeded bodyPi1.paymentIntentId).status = "succeeded" ∧
    validDonation (donationDataOf 0 bodyPi1 (gwSucceeded bodyPi1.paymentIntentId)) ∧
    (∀ e ∈ DB.empty.donations, e.stripePaymentIntentId ≠ some bodyPi1.paymentIntentId) ∧
    (((confirmDonation gwSucceeded true 0 bodyPi1 DB.empty).1 =
        .err "donor upsert failed" ∧
      (confirmDonation gwSucceeded true 0 bodyPi1 DB.empty).2.donations =
        DB.empty.donations ++
          [donationPreSave 0 (donationDataOf 0 bodyPi1 (gwSucceeded bodyPi1.paymentIntentId))] ∧
      (confirmDonation gwSucceeded true 0 bodyPi1 DB.empty).2.donors = DB.empty.donors) ∧
     (∀ (now2 : ℕ) (data : DonationRecord) (db2 : DB),
       (createDonationService true now2 data db2).2 = db2)) :=
  ⟨rfl, validDonation_dataPi1, by intro e he; simp [DB.empty] at he,
   C2_no_rollback_in_confirm gwSucceeded 0 bodyPi1 DB.empty rfl validDonation_dataPi1
     (by intro e he; simp [DB.empty] at he)⟩

/-- On the success path the donations list afterwards is exactly the old
list plus the record built from the request body and the gateway intent. -/
theorem confirm_persists_built_record (gw : String → PaymentIntent) (now : ℕ)
    (body : ConfirmBody) (db : DB)
    (hs : (gw body.paymentIntentId).status = "succeeded")
    (hv : validDonation (donationDataOf now body (gw body.paymentIntentId)))
    (hfresh : ∀ e ∈ db.donations, e.stripePaymentIntentId ≠ some body.paymentIntentId) :
    (confirmDonation gw false now body db).2.donations =
      db.donations ++ [donationPreSave now (donationDataOf now body (gw body.paymentIntentId))] := by
  have h1 := confirmDonation_success_eq gw false now body db hs hv hfresh
  simp only [Bool.false_eq_true, if_false] at h1
  rw [h1]
  exact createOrUpdateDonor_donations _ _ _

/-! ### Claim C3 -/

/-- A gateway that reports 2000 cents (20 dollars), succeeded, no fee. -/
def gwTwenty : String → PaymentIntent := fun s => ⟨s, "succeeded", 2000, none⟩

/-- A gateway that reports 2000 cents with a 59-cent application fee. -/
def gwFee : String → PaymentIntent := fun s => ⟨s, "succeeded", 2000, some 59⟩

/-- A concrete confirm body for intent pi_7 with the honest amount 20. -/
def bodyPi7 : ConfirmBody := ⟨"pi_7", "Upendo Academy", janeInfo, 20, "USD", false, ""⟩

/-- The pi_1 record built against the 2000-cent gateway is schema-valid. -/
theorem validDonation_dataPi1Twenty :
    validDonation (donationDataOf 0 bodyPi1 (gwTwenty "pi_1")) := by
  norm_num [validDonation, donationDataOf, gwTwenty, bodyPi1, janeInfo,
    currencyValues, paymentStatusValues, sourceValues, recurringFrequencyValues]
  decide

/-- The pi_7 record built against the fee-charging gateway is schema-valid. -/
theorem validDonation_dataPi7 :
    validDonation (donationDataOf 0 bodyPi7 (gwFee "pi_7")) := by
  norm_num [validDonation, donationDataOf, gwFee, bodyPi7, janeInfo,
    currencyValues, paymentStatusValues, sourceValues, recurringFrequencyValues]
  decide

/-- Claim C3 counterexample: the gateway reports 2000 cents (= 20 dollars)
for the intent while the client claims 50; the persisted donation carries
the client value 50 as its amount, not the gateway-reported 20. -/
theorem C3_counterexample :
    ((confirmDonation gwTwenty false 0 bodyPi1 DB.empty).2.donations.map
        (fun d => d.amount)) = [50] ∧
    ((2000 : ℚ) / 100 = 20) ∧ ((50 : ℚ) ≠ 20) := by
  refine ⟨?_, by norm_num, by norm_num⟩
  rw [confirm_persists_built_record gwTwenty 0 bodyPi1 DB.empty rfl
        validDonation_dataPi1Twenty (by intro e he; simp [DB.empty] at he),
      donationPreSave_donationDataOf 0 bodyPi1 _ (by decide)]
  rfl

/-- Claim C3 (amended): the persisted donation carries the client-supplied
`amount` (spread from the request body); only `netAmount` and
`transactionFee` are computed from the authoritative gateway-reported
amounts. -/
theorem C3_client_amount_persisted (gw : String → PaymentIntent) (now : ℕ)
    (body : ConfirmBody) (db : DB)
    (hs : (gw body.paymentIntentId).status = "succeeded")
    (hv : validDonation (donationDataOf now body (gw body.paymentIntentId)))
    (hfresh : ∀ e ∈ db.donations, e.stripePaymentIntentId ≠ some body.paymentIntentId)
    (ha : (gw body.paymentIntentId).amount ≠ 0) :
    (confirmDonation gw false now body db).2.donations =
      db.donations ++ [donationDataOf now body (gw body.paymentIntentId)] ∧
    (donationDataOf now body (gw body.paymentIntentId)).amount = body.amount ∧
    (donationDataOf now body (gw body.paymentIntentId)).netAmount =
      some (((gw body.paymentIntentId).amount : ℚ) / 100) ∧
    (donationDataOf now body (gw body.paymentIntentId)).transactionFee =
      (((gw body.paymentIntentId).application_fee_amount.getD 0 : ℤ) : ℚ) / 100 := by
  refine ⟨?_, rfl, rfl, rfl⟩
  rw [confirm_persists_built_record gw now body db hs hv hfresh,
      donationPreSave_donationDataOf now body _ ha]

/-- Witness for C3 at the pi_1 run against the 2000-cent gateway. -/
theorem C3_witness :
    (gwTwenty bodyPi1.paymentIntentId).status = "succeeded" ∧
    validDonation (donationDataOf 0 bodyPi1 (gwTwenty bodyPi1.paymentIntentId)) ∧
    (∀ e ∈ DB.empty.donations, e.stripePaymentIntentId ≠ some bodyPi1.paymentIntentId) ∧
    (gwTwenty bodyPi1.paymentIntentId).amount ≠ 0 ∧
    ((confirmDonation gwTwenty false 0 bodyPi1 DB.empty).2.donations =
       DB.empty.donations ++ [donationDataOf 0 bodyPi1 (gwTwenty bodyPi1.paymentIntentId)] ∧
     (donationDataOf 0 bodyPi1 (gwTwenty bodyPi1.paymentIntentId)).amount = bodyPi1.amount ∧
     (donationDataOf 0 bodyPi1 (gwTwenty bodyPi1.paymentIntentId)).netAmount =
       some (((gwTwenty bodyPi1.paymentIntentId).amount : ℚ) / 100) ∧
     (donationDataOf 0 bodyPi1 (gwTwenty bodyPi1.paymentIntentId)).transactionFee =
       (((gwTwenty bodyPi1.paymentIntentId).application_fee_amount.getD 0 : ℤ) : ℚ) / 100) :=
  ⟨rfl, validDonation_dataPi1Twenty, by intro e he; simp [DB.empty] at he, by decide,
   C3_client_amount_persisted gwTwenty 0 bodyPi1 DB.empty rfl validDonation_dataPi1Twenty
     (by intro e he; simp [DB.empty] at he) (by decide)⟩

/-! ### Claim C7 -/

/-- Claim C7 counterexample: in the concrete run against a gateway that
reports 2000 cents with a 59-cent application fee and an honest client
amount of 20, the persisted, processed record has `netAmount = 20` while
`amount - transactionFee = 19.41` — the invariant
`netAmount = amount - transactionFee` fails on a processed record. -/
theorem C7_counterexample :
    ((confirmDonation gwFee false 0 bodyPi7 DB.empty).2.donations.map
        (fun d => (d.paymentStatus, d.processedAt, d.netAmount,
                   d.amount - d.transactionFee))) =
      [("succeeded", some 0, some 20, 1941 / 100)] ∧
    some ((20 : ℚ)) ≠ some ((1941 : ℚ) / 100) := by
  refine ⟨?_, by norm_num⟩
  rw [confirm_persists_built_record gwFee 0 bodyPi7 DB.empty rfl
        validDonation_dataPi7 (by intro e he; simp [DB.empty] at he),
      donationPreSave_donationDataOf 0 bodyPi7 _ (by decide)]
  norm_num [DB.empty, donationDataOf, bodyPi7, gwFee]

/-- Claim C7 (amended): a record persisted by `confirmDonation` is processed
(`paymentStatus = "succeeded"`, `processedAt` stamped) with
`netAmount = gatewayAmount/100` and `transactionFee = applicationFee/100`
set independently of the persisted (client-supplied) `amount`; the claimed
equation `netAmount = amount - transactionFee` holds for it exactly when
the gateway-reported amount happens to equal the client amount minus the
gateway fee — in particular it fails whenever the gateway reports a nonzero
application fee against an honest client amount. -/
theorem C7_net_amount_equation (gw : String → PaymentIntent) (now : ℕ)
    (body : ConfirmBody) (db : DB)
    (hs : (gw body.paymentIntentId).status = "succeeded")
    (hv : validDonation (donationDataOf now body (gw body.paymentIntentId)))
    (hfresh : ∀ e ∈ db.donations, e.stripePaymentIntentId ≠ some body.paymentIntentId)
    (ha : (gw body.paymentIntentId).amount ≠ 0) :
    (confirmDonation gw false now body db).2.donations =
      db.donations ++ [donationDataOf now body (gw body.paymentIntentId)] ∧
    (donationDataOf now body (gw body.paymentIntentId)).paymentStatus = "succeeded" ∧
    (donationDataOf now body (gw body.paymentIntentId)).processedAt = some now ∧
    ((donationDataOf now body (gw body.paymentIntentId)).netAmount =
        some ((donationDataOf now body (gw body.paymentIntentId)).amount -
              (donationDataOf now body (gw body.paymentIntentId)).transactionFee) ↔
      ((gw body.paymentIntentId).amount : ℚ) / 100 =
        body.amount - (((gw body.paymentIntentId).application_fee_amount.getD 0 : ℤ) : ℚ) / 100) := by
  refine ⟨?_, rfl, rfl, ?_⟩
  · rw [confirm_persists_built_record gw now body db hs hv hfresh,
        donationPreSave_donationDataOf now body _ ha]
  · simp [donationDataOf]

/-- Witness for C7 at the pi_7 fee-charging run. -/
theorem C7_witness :
    (gwFee bodyPi7.paymentIntentId).status = "succeeded" ∧
    validDonation (donationDataOf 0 bodyPi7 (gwFee bodyPi7.paymentIntentId)) ∧
    (∀ e ∈ DB.empty.donations, e.stripePaymentIntentId ≠ some bodyPi7.paymentIntentId) ∧
    (gwFee bodyPi7.paymentIntentId).amount ≠ 0 ∧
    ((confirmDonation gwFee false 0 bodyPi7 DB.empty).2.donations =
       DB.empty.donations ++ [donationDataOf 0 bodyPi7 (gwFee bodyPi7.paymentIntentId)] ∧
     (donationDataOf 0 bodyPi7 (gwFee bodyPi7.paymentIntentId)).paymentStatus = "succeeded" ∧
     (donationDataOf 0 bodyPi7 (gwFee bodyPi7.paymentIntentId)).processedAt = some 0 ∧
     ((donationDataOf 0 bodyPi7 (gwFee bodyPi7.paymentIntentId)).netAmount =
         some ((donationDataOf 0 bodyPi7 (gwFee bodyPi7.paymentIntentId)).amount -
               (donationDataOf 0 bodyPi7 (gwFee bodyPi7.paymentIntentId)).transactionFee) ↔
       ((gwFee bodyPi7.paymentIntentId).amount : ℚ) / 100 =
         bodyPi7.amount -
           (((gwFee bodyPi7.paymentIntentId).application_fee_amount.getD 0 : ℤ) : ℚ) / 100)) :=
  ⟨rfl, validDonation_dataPi7, by intro e he; simp [DB.empty] at he, by decide,
   C7_net_amount_equation gwFee 0 bodyPi7 DB.empty rfl validDonation_dataPi7
     (by intro e he; simp [DB.empty] at he) (by decide)⟩

/-! ### Claim C4 -/

/-- A campaign at 90 of 100 raised, active. -/
def campaignC4 : Campaign := ⟨"c1", 100, 90, 5, "active"⟩

/-- A succeeded 20-dollar donation attributed to campaign c1. -/
def donationC4 : DonationRecord :=
  { donorInfo := janeInfo
    ministry := ""
    amount := 20
    currency := "USD"
    isRecurring := false
    recurringFrequency := none
    isAnonymous := false
    message := ""
    stripePaymentIntentId := some "pi_4"
    stripeCustomerId := none
    stripeSubscriptionId := none
    stripeInvoiceId := none
    paymentStatus := "succeeded"
    transactionFee := 0
    netAmount := some 20
    processedAt := some 0
    source := "website" }

theorem validDonation_donationC4 : validDonation donationC4 := by
  norm_num [validDonation, donationC4, janeInfo, currencyValues,
    paymentStatusValues, sourceValues, recurringFrequencyValues]
  decide

theorem preSave_donationC4 : donationPreSave 0 donationC4 = donationC4 := by
  norm_num [donationPreSave, donationC4, toFixed2, round_eq]

/-- Claim C4 counterexample: the campaign at 90 of 100 receives the
succeeded 20-dollar donation through the transactional
`DonationService.createDonation`; afterwards `raisedAmount` is 110 but
`status` is still `"active"` — the `$inc` update does not run the pre-save
hook, so no `completed` transition happens in that atomic update. -/
theorem C4_counterexample :
    ((createDonationWithCampaign false 0 "c1" donationC4
        ⟨[], [], [campaignC4]⟩).2.campaigns.map
        (fun c => (c.raisedAmount, c.status))) = [(110, "active")] ∧
    ("active" : String) ≠ "completed" := by
  constructor
  · unfold createDonationWithCampaign
    rw [saveNewDonation_eq_ok 0 donationC4 ⟨[], [], [campaignC4]⟩ validDonation_donationC4
          (by rintro ⟨e, he, -, -⟩; simp at he),
        preSave_donationC4]
    norm_num [createOrUpdateDonor_campaigns, campaignIncrement, campaignC4, donationC4]
  · decide

/-- Claim C4 (amended): in the atomic update performed by the
Campaign-variant `DonationService.createDonation`, the campaign
field `raisedAmount` becomes 110 and `donorCount` is bumped, but `status` stays
`"active"` — the completed-threshold transition is not part of that update;
it is applied only by `updateProgress` or the `pre("save")` hook, either of
which, run on the same data, does yield `raisedAmount = 110` and
`status = "completed"`. -/
theorem C4_threshold_transition :
    ((createDonationWithCampaign false 0 "c1" donationC4
        ⟨[], [], [campaignC4]⟩).2.campaigns.map
        (fun c => (c.raisedAmount, c.donorCount, c.status))) = [(110, 6, "active")] ∧
    updateProgress 20 campaignC4 = ⟨"c1", 100, 110, 6, "completed"⟩ ∧
    campaignPreSave ⟨"c1", 100, 110, 6, "active"⟩ = ⟨"c1", 100, 110, 6, "completed"⟩ := by
  refine ⟨?_, ?_, ?_⟩
  · unfold createDonationWithCampaign
    rw [saveNewDonation_eq_ok 0 donationC4 ⟨[], [], [campaignC4]⟩ validDonation_donationC4
          (by rintro ⟨e, he, -, -⟩; simp at he),
        preSave_donationC4]
    norm_num [createOrUpdateDonor_campaigns, campaignIncrement, campaignC4, donationC4]
  · unfold updateProgress campaignPreSave toFixed2
    norm_num [campaignC4, round_eq]
  · unfold campaignPreSave
    norm_num

/-! ### Claim C5 -/

theorem statusAssign_paymentStatus (now : ℕ) (status : String) (d : DonationRecord) :
    (statusAssign now status d).paymentStatus = status := by
  unfold statusAssign
  split <;> rfl

/-- A stored, processed, succeeded donation under intent pi_5 (and
subscription sub_5). -/
def donationPi5 : DonationRecord :=
  { donorInfo := janeInfo
    ministry := "Upendo Academy"
    amount := 50
    currency := "USD"
    isRecurring := false
    recurringFrequency := none
    isAnonymous := false
    message := ""
    stripePaymentIntentId := some "pi_5"
    stripeCustomerId := none
    stripeSubscriptionId := some "sub_5"
    stripeInvoiceId := none
    paymentStatus := "succeeded"
    transactionFee := 0
    netAmount := some 50
    processedAt := some 0
    source := "website" }

/-- Evaluation of `updateDonationStatus` when the lookup finds a donation
and the updated document passes validation. -/
theorem updateDonationStatus_found (now : ℕ) (pid status : String) (db : DB)
    (d : DonationRecord)
    (hfind : db.donations.find? (fun e => e.stripePaymentIntentId == some pid) = some d)
    (hv : validDonation (statusAssign now status d)) :
    updateDonationStatus now pid status db =
      (.ok (donationPreSave now (statusAssign now status d)),
       { db with donations := db.donations.map (fun e =>
           if e.stripePaymentIntentId == some pid then
             donationPreSave now (statusAssign now status d)
           else e) }) := by
  unfold updateDonationStatus
  simp only [hfind, hv, if_true]

theorem statusAssign_failedPi5 :
    statusAssign 1 "failed" donationPi5 =
      { donationPi5 with paymentStatus := "failed" } := by
  unfold statusAssign
  simp [donationPi5]

theorem validDonation_failedPi5 :
    validDonation (statusAssign 1 "failed" donationPi5) := by
  rw [statusAssign_failedPi5]
  norm_num [validDonation, donationPi5, janeInfo, currencyValues,
    paymentStatusValues, sourceValues, recurringFrequencyValues]
  decide

theorem preSave_failedPi5 :
    donationPreSave 1 { donationPi5 with paymentStatus := "failed" } =
      { donationPi5 with paymentStatus := "failed" } := by
  norm_num [donationPreSave, donationPi5, toFixed2, round_eq]
  decide

/-- Claim C5 counterexample: a `payment_intent.payment_failed` webhook
arriving for an already-succeeded donation overwrites its status with
`"failed"` — a transition the spec state machine does not allow from
`succeeded`; the code enforces no forward-only transition discipline. -/
theorem C5_counterexample :
    ((handlePaymentFailed 1 "pi_5" ⟨[donationPi5], [], []⟩).2.donations.map
        (fun d => d.paymentStatus)) = ["failed"] ∧
    ¬ specAllowedTransition "succeeded" "failed" := by
  constructor
  · unfold handlePaymentFailed
    rw [updateDonationStatus_found 1 "pi_5" "failed" _ donationPi5
          (List.find?_cons_of_pos _ (by decide)) validDonation_failedPi5,
        statusAssign_failedPi5, preSave_failedPi5]
    simp [donationPi5]
  · decide

/-- Claim C5 (amended): `updateDonationStatus` enforces no state machine —
it overwrites `paymentStatus` unconditionally, so a late payment-failed
webhook moves a `succeeded` donation to `failed` (a transition outside the
spec machine, see the counterexample); but the webhook operations only ever
write `succeeded`, `failed` or `canceled`, so a store holding no `pending`
donation never acquires one: in particular a succeeded donation never
reverts to `pending` through these paths. -/
theorem C5_no_revert_to_pending (now : ℕ) (pid subId status : String) (db : DB)
    (hstat : status = "succeeded" ∨ status = "failed")
    (hnp : ∀ d ∈ db.donations, d.paymentStatus ≠ "pending") :
    (∀ d ∈ (updateDonationStatus now pid status db).2.donations,
       d.paymentStatus ≠ "pending") ∧
    (∀ d ∈ (cancelRecurringDonation subId db).donations,
       d.paymentStatus ≠ "pending") := by
  constructor
  · unfold updateDonationStatus
    cases hfind : db.donations.find? (fun d => d.stripePaymentIntentId == some pid) with
    | none =>
        simp only [hfind]
        exact hnp
    | some d =>
        simp only [hfind]
        split
        · intro d' hd'
          simp only [List.mem_map] at hd'
          obtain ⟨e, he, heq⟩ := hd'
          by_cases hpe : (e.stripePaymentIntentId == some pid) = true
          · rw [if_pos hpe] at heq
            rw [← heq, donationPreSave_paymentStatus, statusAssign_paymentStatus]
            rcases hstat with h | h <;> rw [h] <;> decide
          · rw [if_neg hpe] at heq
            rw [← heq]
            exact hnp e he
        · exact hnp
  · intro d' hd'
    unfold cancelRecurringDonation at hd'
    simp only [List.mem_map] at hd'
    obtain ⟨e, he, heq⟩ := hd'
    by_cases hpe : (e.stripeSubscriptionId == some subId) = true
    · rw [if_pos hpe] at heq
      rw [← heq]
      exact (by decide : ("canceled" : String) ≠ "pending")
    · rw [if_neg hpe] at heq
      rw [← heq]
      exact hnp e he

/-- Witness for C5: the pi_5 store holds no pending donation, and neither a
failed-payment webhook nor a subscription cancellation introduces one. -/
theorem C5_witness :
    (("failed" : String) = "succeeded" ∨ ("failed" : String) = "failed") ∧
    (∀ d ∈ (⟨[donationPi5], [], []⟩ : DB).donations, d.paymentStatus ≠ "pending") ∧
    ((∀ d ∈ (updateDonationStatus 1 "pi_5" "failed" ⟨[donationPi5], [], []⟩).2.donations,
        d.paymentStatus ≠ "pending") ∧
     (∀ d ∈ (cancelRecurringDonation "sub_5" ⟨[donationPi5], [], []⟩).donations,
        d.paymentStatus ≠ "pending")) :=
  ⟨Or.inr rfl, by decide,
   C5_no_revert_to_pending 1 "pi_5" "sub_5" "failed" ⟨[donationPi5], [], []⟩
     (Or.inr rfl) (by decide)⟩

/-! ### Claim C6 -/

theorem validDonation_netAmount_isSome (d : DonationRecord)
    (hv : validDonation d) : d.netAmount.isSome = true := by
  unfold validDonation at hv
  exact hv.2.2.2.2.2.2.2.2.2.2.2.2.2.1

/-- Setting an already-succeeded, already-processed donation to
`"succeeded"` again changes nothing. -/
theorem statusAssign_succeeded_self (now : ℕ) (d : DonationRecord)
    (hst : d.paymentStatus = "succeeded") (hp : d.processedAt ≠ none) :
    statusAssign now "succeeded" d = d := by
  unfold statusAssign
  rw [if_neg (by rintro ⟨-, h⟩; exact hp h)]
  cases d
  simp_all

/-- The pre-save middleware is the identity on a document with a present
nonzero `netAmount` and a stamped `processedAt`. -/
theorem donationPreSave_noop (now : ℕ) (d : DonationRecord)
    (h1 : d.netAmount.isSome = true) (h2 : d.netAmount ≠ some 0)
    (h3 : d.processedAt ≠ none) :
    donationPreSave now d = d := by
  have hc1 : ¬ ((d.netAmount = none ∨ d.netAmount = some 0) ∧ d.amount ≠ 0) := by
    rintro ⟨hn | hn, -⟩
    · rw [hn] at h1
      exact Bool.false_ne_true h1
    · exact h2 hn
  have hc2 : ¬ (d.paymentStatus = "succeeded" ∧ d.processedAt = none) := by
    rintro ⟨-, hp⟩
    exact h3 hp
  unfold donationPreSave
  rw [if_neg hc1, if_neg hc2]

/-- A concrete valid confirm body for intent pi_6. -/
def bodyPi6 : ConfirmBody := ⟨"pi_6", "Upendo Academy", janeInfo, 50, "USD", false, ""⟩

theorem validDonation_dataPi6 :
    validDonation (donationDataOf 0 bodyPi6 (gwSucceeded "pi_6")) := by
  norm_num [validDonation, donationDataOf, gwSucceeded, bodyPi6, janeInfo,
    currencyValues, paymentStatusValues, sourceValues, recurringFrequencyValues]
  decide

/-- Claim C6 counterexample: a `payment_intent.succeeded` webhook is NOT
driven through the donation-confirmation path — on a store with no donation
for the intent it errors with "Donation not found" and creates nothing, so
delivering the identical event twice produces zero donations (the claim
says exactly one); `confirmDonation` on the same store and intent does
create one. -/
theorem C6_counterexample :
    handlePaymentSucceeded 0 "pi_6" DB.empty = (.err "Donation not found", DB.empty) ∧
    (handlePaymentSucceeded 0 "pi_6"
      (handlePaymentSucceeded 0 "pi_6" DB.empty).2).2.donations.length = 0 ∧
    (confirmDonation gwSucceeded false 0 bodyPi6 DB.empty).2.donations.length = 1 := by
  refine ⟨rfl, rfl, ?_⟩
  rw [confirm_persists_built_record gwSucceeded 0 bodyPi6 DB.empty rfl validDonation_dataPi6
        (by intro e he; simp [DB.empty] at he)]
  simp [DB.empty]

/-- Claim C6 (amended): `payment_intent.succeeded` is routed to the
status-update path (`updateDonationStatus`), distinct from the
confirmation path: it never creates a donation (it errors when none exists
for the intent — see the counterexample); when the store holds the
already-processed donation for the intent, each delivery returns it and
leaves the store exactly unchanged, so delivering the identical event twice
leaves precisely that one donation. -/
theorem C6_webhook_status_update (now : ℕ) (pid : String) (d0 : DonationRecord)
    (donors : List DonorRecord) (camps : List Campaign)
    (hid : d0.stripePaymentIntentId = some pid)
    (hst : d0.paymentStatus = "succeeded")
    (hproc : d0.processedAt ≠ none)
    (hnet : d0.netAmount ≠ some 0)
    (hv : validDonation d0) :
    handlePaymentSucceeded now pid ⟨[d0], donors, camps⟩ =
      (.ok d0, ⟨[d0], donors, camps⟩) ∧
    (handlePaymentSucceeded now pid
      (handlePaymentSucceeded now pid ⟨[d0], donors, camps⟩).2).2 =
      ⟨[d0], donors, camps⟩ := by
  have hpd0 : (d0.stripePaymentIntentId == some pid) = true := by
    simp [hid]
  have hsa : statusAssign now "succeeded" d0 = d0 :=
    statusAssign_succeeded_self now d0 hst hproc
  have hpre : donationPreSave now d0 = d0 :=
    donationPreSave_noop now d0 (validDonation_netAmount_isSome d0 hv) hnet hproc
  have hfind : [d0].find? (fun e => e.stripePaymentIntentId == some pid) = some d0 :=
    List.find?_cons_of_pos _ hpd0
  have hmain : handlePaymentSucceeded now pid ⟨[d0], donors, camps⟩ =
      (.ok d0, ⟨[d0], donors, camps⟩) := by
    unfold handlePaymentSucceeded
    rw [updateDonationStatus_found now pid "succeeded" ⟨[d0], donors, camps⟩ d0
          hfind (by rw [hsa]; exact hv),
        hsa, hpre]
    simp [hpd0]
  exact ⟨hmain, by simp [hmain]⟩

theorem validDonation_donationPi5 : validDonation donationPi5 := by
  norm_num [validDonation, donationPi5, janeInfo, currencyValues,
    paymentStatusValues, sourceValues, recurringFrequencyValues]
  decide

/-- Witness for C6 at the stored processed pi_5 donation. -/
theorem C6_witness :
    donationPi5.stripePaymentIntentId = some "pi_5" ∧
    donationPi5.paymentStatus = "succeeded" ∧
    donationPi5.processedAt ≠ none ∧
    donationPi5.netAmount ≠ some 0 ∧
    validDonation donationPi5 ∧
    (handlePaymentSucceeded 3 "pi_5" ⟨[donationPi5], [], []⟩ =
       (.ok donationPi5, ⟨[donationPi5], [], []⟩) ∧
     (handlePaymentSucceeded 3 "pi_5"
        (handlePaymentSucceeded 3 "pi_5" ⟨[donationPi5], [], []⟩).2).2 =
       ⟨[donationPi5], [], []⟩) :=
  ⟨rfl, rfl, by decide, by decide, validDonation_donationPi5,
   C6_webhook_status_update 3 "pi_5" donationPi5 [] [] rfl rfl (by decide) (by decide)
     validDonation_donationPi5⟩

/-! ### Claim C10 -/

theorem validDonation_intent_nonempty (d : DonationRecord)
    (hv : validDonation d) : d.stripePaymentIntentId.getD "" ≠ "" := by
  unfold validDonation at hv
  exact hv.2.2.2.2.2.2.2.2.2.2.1

/-- Claim C10: every donation that `saveNewDonation` actually persists
carries a nonempty `stripePaymentIntentId` which no already-stored donation
uses (the unique sparse index), and the requirement applies to every
creation path: in particular the recurring-invoice data built by
`createRecurringDonation` — subscription, customer and invoice ids but no
intent id — can never pass schema validation, on any store. -/
theorem C10_intent_required_unique (now : ℕ) (d d1 : DonationRecord) (db db1 : DB)
    (h : saveNewDonation now d db = .ok (d1, db1)) :
    (∃ s, d1.stripePaymentIntentId = some s ∧ s ≠ "") ∧
    (∀ e ∈ db.donations, e.stripePaymentIntentId ≠ d1.stripePaymentIntentId) ∧
    (∀ (now2 : ℕ) (orig : DonationRecord) (inv : InvoiceData) (db2 : DB),
      saveNewDonation now2 (recurringDonationData now2 orig inv) db2 =
        .error "ValidationError") := by
  unfold saveNewDonation at h
  by_cases hv : validDonation d
  · rw [if_neg (not_not_intro hv)] at h
    by_cases hc : hasIntentConflict db d
    · rw [if_pos hc] at h
      exact absurd h (by simp)
    · rw [if_neg hc] at h
      have hd1 : d1 = donationPreSave now d := by
        have := Except.ok.inj h
        exact (Prod.mk.injEq _ _ _ _ ▸ this).1.symm
      have hne : d.stripePaymentIntentId.getD "" ≠ "" :=
        validDonation_intent_nonempty d hv
      have hid1 : d1.stripePaymentIntentId = d.stripePaymentIntentId := by
        rw [hd1, donationPreSave_stripePaymentIntentId]
      refine ⟨?_, ?_, ?_⟩
      · cases hopt : d.stripePaymentIntentId with
        | none =>
            rw [hopt] at hne
            exact absurd rfl hne
        | some s =>
            refine ⟨s, by rw [hid1, hopt], ?_⟩
            rw [hopt] at hne
            exact hne
      · intro e he heq
        cases hopt : d.stripePaymentIntentId with
        | none =>
            rw [hopt] at hne
            exact absurd rfl hne
        | some s =>
            exact hc ⟨e, he, by rw [heq, hid1, hopt]; rfl, by rw [heq, hid1]⟩
      · intro now2 orig inv db2
        unfold saveNewDonation
        rw [if_pos]
        intro hval
        have := validDonation_intent_nonempty _ hval
        exact this rfl
  · rw [if_pos hv] at h
    exact absurd h (by simp)

/-- Witness for C10: the valid pi_4 donation is persisted on the empty
store, so the theorem applies to it. -/
theorem C10_witness :
    saveNewDonation 0 donationC4 DB.empty = .ok (donationC4, ⟨[donationC4], [], []⟩) ∧
    ((∃ s, donationC4.stripePaymentIntentId = some s ∧ s ≠ "") ∧
     (∀ e ∈ DB.empty.donations, e.stripePaymentIntentId ≠ donationC4.stripePaymentIntentId) ∧
     (∀ (now2 : ℕ) (orig : DonationRecord) (inv : InvoiceData) (db2 : DB),
       saveNewDonation now2 (recurringDonationData now2 orig inv) db2 =
         .error "ValidationError")) := by
  have hsave : saveNewDonation 0 donationC4 DB.empty =
      .ok (donationC4, ⟨[donationC4], [], []⟩) := by
    rw [saveNewDonation_eq_ok 0 donationC4 DB.empty validDonation_donationC4
          (by rintro ⟨e, he, -, -⟩; simp [DB.empty] at he),
        preSave_donationC4]
    rfl
  exact ⟨hsave, C10_intent_required_unique 0 donationC4 donationC4 DB.empty
    ⟨[donationC4], [], []⟩ hsave⟩

end Rockbridge
